import Mathlib

/-!
Shallow embedding of the TodoFlow-Labs domain-processor service
(src/internal/processor/handlers.go and the subscription dispatcher in
src/internal/subscriber), together with theorems settling the frozen
claims about its command-to-event behavior.

Modelling conventions:
- time.Time is modelled as a natural number (an abstract clock reading);
  uuid.NewString() and time.Now() are external sources of nondeterminism
  and enter the handlers as explicit parameters.
- json.Marshal and js.Publish are external collaborators; they are
  modelled as fields of an environment record: marshal may fail with an
  error string, publish may fail with an error string. Each handler
  returns the list of broker publish calls it performed (subject paired
  with the event value whose serialization was passed to the broker)
  together with the Go error value it returned (none = nil error).
-/

namespace DomainProcessor

/-- time.Time, modelled as an abstract clock reading. -/
abbrev Time := Nat

/-- A serialized payload (the bytes produced by json.Marshal). -/
abbrev Bytes := List Nat

/-- The six event discriminants of the shared dto event model
(dto.TodoCreatedEvt and friends; the spec lists Created/Updated/Deleted
crossed with Success/Failed). -/
inductive EventType where
  | TodoCreatedEvt
  | TodoUpdatedEvt
  | TodoDeletedEvt
  | TodoCreateFailedEvt
  | TodoUpdateFailedEvt
  | TodoDeleteFailedEvt
deriving DecidableEq, Repr

/-- dto.BaseEvent: the base embedded in every event. -/
structure BaseEvent where
  type : EventType
  id : String
  userId : String
  timestamp : Time
deriving DecidableEq, Repr

/-- dto.TodoCreatedEvent. Optional fields are carried verbatim from the
command, so they keep their optional shape. -/
structure TodoCreatedEvent where
  base : BaseEvent
  title : String
  description : Option String
  dueDate : Option Time
  priority : Option Nat
  tags : Option (List String)
deriving DecidableEq, Repr

/-- dto.TodoUpdatedEvent. Title/description/completed/tags are the
dereferenced (defaulted) values; dueDate/priority are carried verbatim. -/
structure TodoUpdatedEvent where
  base : BaseEvent
  title : String
  description : String
  completed : Bool
  dueDate : Option Time
  priority : Option Nat
  tags : List String
deriving DecidableEq, Repr

/-- dto.TodoDeletedEvent: only the base. -/
structure TodoDeletedEvent where
  base : BaseEvent
deriving DecidableEq, Repr

/-- The closed union of event values the processor can hand to
publishEvent (in Go, publishEvent takes the event as an `any`). -/
inductive Event where
  | created (e : TodoCreatedEvent)
  | updated (e : TodoUpdatedEvent)
  | deleted (e : TodoDeletedEvent)
deriving DecidableEq, Repr

/-- The discriminant of an event value. -/
def eventTypeOf : Event → EventType
  | .created e => e.base.type
  | .updated e => e.base.type
  | .deleted e => e.base.type

/-- The userId of an event value. -/
def eventUserId : Event → String
  | .created e => e.base.userId
  | .updated e => e.base.userId
  | .deleted e => e.base.userId

/-- The timestamp of an event value. -/
def eventTimestamp : Event → Time
  | .created e => e.base.timestamp
  | .updated e => e.base.timestamp
  | .deleted e => e.base.timestamp

/-- dto.BaseCommand: the envelope base decoded first by the dispatcher.
The discriminant is a wire string compared against the dto constants. -/
structure BaseCommand where
  type : String
  id : String
  userId : String
deriving DecidableEq, Repr

/-- dto.CreateTodoCommand: required title plus optional fields. -/
structure CreateTodoCommand where
  userId : String
  title : String
  description : Option String
  dueDate : Option Time
  priority : Option Nat
  tags : Option (List String)
deriving DecidableEq, Repr

/-- dto.UpdateTodoCommand: pointer-typed (nullable) patch fields. -/
structure UpdateTodoCommand where
  id : String
  userId : String
  title : Option String
  description : Option String
  completed : Option Bool
  dueDate : Option Time
  priority : Option Nat
  tags : Option (List String)
deriving DecidableEq, Repr

/-- dto.DeleteTodoCommand: only the base fields. -/
structure DeleteTodoCommand where
  id : String
  userId : String
deriving DecidableEq, Repr

/-- derefString from handlers.go: a nil pointer dereferences to "". -/
def derefString : Option String → String
  | some s => s
  | none => ""

/-- derefBool from handlers.go: a nil pointer dereferences to false. -/
def derefBool : Option Bool → Bool
  | some b => b
  | none => false

/-- derefStringSlice from handlers.go: a nil pointer dereferences to the
nil (empty) slice. -/
def derefStringSlice : Option (List String) → List String
  | some s => s
  | none => []

/-- The external collaborators of the Processor: json.Marshal (may fail
with an error) and the JetStream publish call (none = broker ack,
some e = transport error). -/
structure Env where
  marshal : Event → Except String Bytes
  publishResult : String → Bytes → Option String

/-- Boolean success test for a marshal outcome. -/
def isOkE (r : Except String Bytes) : Bool :=
  match r with
  | .ok _ => true
  | .error _ => false

/-- Processor.publishEvent (handlers.go lines 81-92): marshal the event;
on marshal failure log and return the error without publishing; else
publish and return the publish error (nil on success). The first
component is the list of broker publish calls performed. -/
def publishEvent (env : Env) (subject : String) (evt : Event) :
    List (String × Event) × Option String :=
  match env.marshal evt with
  | .error e => ([], some e)
  | .ok data =>
    match env.publishResult subject data with
    | some e => ([(subject, evt)], some e)
    | none => ([(subject, evt)], none)

/-- Processor.HandleCreate (handlers.go lines 28-45): build a
TodoCreatedEvent whose id is uuid.NewString() and whose timestamp is
time.Now(), copy the command fields, and publish it. The uuid and clock
readings enter as the newUUID and now parameters. No store is consulted:
the Processor of this file holds only the JetStream handle and a logger. -/
def HandleCreate (env : Env) (newUUID : String) (now : Time)
    (cmd : CreateTodoCommand) : List (String × Event) × Option String :=
  let evt : TodoCreatedEvent :=
    { base := { type := .TodoCreatedEvt, userId := cmd.userId,
                timestamp := now, id := newUUID }
      title := cmd.title
      description := cmd.description
      dueDate := cmd.dueDate
      priority := cmd.priority
      tags := cmd.tags }
  publishEvent env "todo.events" (.created evt)

/-- Processor.HandleUpdate (handlers.go lines 47-65): build a
TodoUpdatedEvent from the command with nil pointers dereferenced to
defaults, timestamp time.Now(), and publish it. No store is consulted
and no rows-affected outcome exists. -/
def HandleUpdate (env : Env) (now : Time) (cmd : UpdateTodoCommand) :
    List (String × Event) × Option String :=
  let evt : TodoUpdatedEvent :=
    { base := { type := .TodoUpdatedEvt, id := cmd.id, userId := cmd.userId,
                timestamp := now }
      title := derefString cmd.title
      description := derefString cmd.description
      completed := derefBool cmd.completed
      dueDate := cmd.dueDate
      priority := cmd.priority
      tags := derefStringSlice cmd.tags }
  publishEvent env "todo.events" (.updated evt)

/-- Processor.HandleDelete (handlers.go lines 67-79): build a
TodoDeletedEvent carrying only the base, timestamp time.Now(), and
publish it. No store is consulted. -/
def HandleDelete (env : Env) (now : Time) (cmd : DeleteTodoCommand) :
    List (String × Event) × Option String :=
  let evt : TodoDeletedEvent :=
    { base := { type := .TodoDeletedEvt, id := cmd.id, userId := cmd.userId,
                timestamp := now } }
  publishEvent env "todo.events" (.deleted evt)

/-- The three command variants the dispatcher can route. -/
inductive Command where
  | create (c : CreateTodoCommand)
  | update (c : UpdateTodoCommand)
  | delete (c : DeleteTodoCommand)
deriving DecidableEq, Repr

/-- One processor invocation for an arbitrary command variant. -/
def runCommand (env : Env) (newUUID : String) (now : Time) :
    Command → List (String × Event) × Option String
  | .create c => HandleCreate env newUUID now c
  | .update c => HandleUpdate env now c
  | .delete c => HandleDelete env now c

/-- dto.CreateTodoCmd, the wire discriminant of a Create command. -/
def CreateTodoCmd : String := "CreateTodo"

/-- dto.UpdateTodoCmd, the wire discriminant of an Update command. -/
def UpdateTodoCmd : String := "UpdateTodo"

/-- dto.DeleteTodoCmd, the wire discriminant of a Delete command. -/
def DeleteTodoCmd : String := "DeleteTodo"

/-- The decode outcomes for one delivered message: the result of
json.Unmarshal into the base envelope, and the values left by the
(error-ignored) json.Unmarshal calls into each concrete command type. -/
structure MsgOracle where
  decodeBase : Except String BaseCommand
  decodeCreate : CreateTodoCommand
  decodeUpdate : UpdateTodoCommand
  decodeDelete : DeleteTodoCommand

/-- One observable step of the subscription dispatcher for a message. -/
inductive DispatchStep where
  | ackMsg
  | published (subject : String) (evt : Event)
  | loggedError
  | loggedDebug
  | loggedWarn
deriving DecidableEq, Repr

/-- Boolean test for an acknowledgment step. -/
def isAckStep : DispatchStep → Bool
  | .ackMsg => true
  | _ => false

/-- Boolean test for a broker publish step. -/
def isPubStep : DispatchStep → Bool
  | .published _ _ => true
  | _ => false

/-- The anonymous message callback inside SubscribeToCommands
(internal/subscriber/subscriber.go): decode the base envelope; on decode
failure log and Ack; otherwise switch on the discriminant, decode the
concrete command and invoke the matching handler (its returned error is
discarded), or log a warning on an unknown discriminant; then Ack
unconditionally. -/
def subscribeCallback (env : Env) (newUUID : String) (now : Time)
    (msg : MsgOracle) : List DispatchStep :=
  match msg.decodeBase with
  | .error _ => [.loggedError, .ackMsg]
  | .ok base =>
    let inner : List DispatchStep :=
      if base.type = CreateTodoCmd then
        (HandleCreate env newUUID now msg.decodeCreate).1.map
          (fun p => DispatchStep.published p.1 p.2)
      else if base.type = UpdateTodoCmd then
        (HandleUpdate env now msg.decodeUpdate).1.map
          (fun p => DispatchStep.published p.1 p.2)
      else if base.type = DeleteTodoCmd then
        (HandleDelete env now msg.decodeDelete).1.map
          (fun p => DispatchStep.published p.1 p.2)
      else
        [.loggedWarn]
    .loggedDebug :: (inner ++ [.ackMsg])

/-- Number of acknowledgments in a dispatch trace. -/
def ackCount (t : List DispatchStep) : Nat := t.countP isAckStep

/-- Number of broker publish calls in a dispatch trace. -/
def pubCount (t : List DispatchStep) : Nat := t.countP isPubStep

/-- An environment in which serialization and transport both succeed. -/
def envOk : Env :=
  { marshal := fun _ => .ok [], publishResult := fun _ _ => none }

/-- An environment in which serialization always fails. -/
def envBoom : Env :=
  { marshal := fun _ => .error "boom", publishResult := fun _ _ => none }

/-- A concrete Create command (the spec scenario in section 8). -/
def cmdC : CreateTodoCommand :=
  { userId := "u1", title := "buy milk", description := none,
    dueDate := none, priority := none, tags := none }

/-- A concrete Update command with title/description/tags absent (the
spec scenario in section 8). -/
def cmdU : UpdateTodoCommand :=
  { id := "t1", userId := "u1", title := none, description := none,
    completed := some true, dueDate := none, priority := none, tags := none }

/-- A concrete Delete command (the spec scenario in section 8). -/
def cmdD : DeleteTodoCommand := { id := "t1", userId := "u1" }

/-- A message whose base envelope fails to decode. -/
def msgBad : MsgOracle :=
  { decodeBase := .error "invalid json", decodeCreate := cmdC,
    decodeUpdate := cmdU, decodeDelete := cmdD }

/-- A message whose envelope decodes but carries an unknown discriminant. -/
def msgUnknown : MsgOracle :=
  { decodeBase := .ok { type := "Bogus", id := "", userId := "u1" },
    decodeCreate := cmdC, decodeUpdate := cmdU, decodeDelete := cmdD }

/-- A well-formed Update message. -/
def msgUpdate : MsgOracle :=
  { decodeBase := .ok { type := "UpdateTodo", id := "t1", userId := "u1" },
    decodeCreate := cmdC, decodeUpdate := cmdU, decodeDelete := cmdD }

/-- The concrete Deleted event built by HandleDelete for cmdD at clock 5. -/
def evtD : Event :=
  Event.deleted
    { base := { type := .TodoDeletedEvt, id := "t1", userId := "u1",
                timestamp := 5 } }

end DomainProcessor

namespace DomainProcessor

/-- Helper: publishEvent performs either zero broker publish calls (marshal
failed) or exactly the one call for the given subject and event. -/
theorem publishEvent_trace (env : Env) (s : String) (e : Event) :
    (publishEvent env s e).1 = [] ∨ (publishEvent env s e).1 = [(s, e)] := by
  cases hm : env.marshal e with
  | error er => left; simp [publishEvent, hm]
  | ok d =>
    right
    simp only [publishEvent, hm]
    cases hp : env.publishResult s d <;> simp [hp]

/-- Helper: when serialization succeeds, publishEvent performs exactly one
broker publish call. -/
theorem publishEvent_trace_of_ok (env : Env) (s : String) (e : Event)
    (h : isOkE (env.marshal e) = true) :
    (publishEvent env s e).1 = [(s, e)] := by
  cases hm : env.marshal e with
  | error er => simp [isOkE, hm] at h
  | ok d =>
    simp only [publishEvent, hm]
    cases hp : env.publishResult s d <;> simp [hp]

/-- Helper: a property holding of the built event holds of every publish
call in the publishEvent trace. -/
theorem publishEvent_all (env : Env) (s : String) (e : Event)
    (p : String × Event → Bool) (h : p (s, e) = true) :
    ((publishEvent env s e).1.all p) = true := by
  rcases publishEvent_trace env s e with h1 | h1 <;> simp [h1, h]

/-- Helper: a dispatch-trace fragment consisting only of publish steps
contains no acknowledgment. -/
theorem ackCount_map_pub (l : List (String × Event)) :
    (l.map fun p => DispatchStep.published p.1 p.2).countP isAckStep = 0 := by
  induction l with
  | nil => rfl
  | cons a t ih => simp [List.countP_cons, isAckStep, ih]

/-- Helper: the publishEvent trace never holds more than one call. -/
theorem publishEvent_length_le (env : Env) (s : String) (e : Event) :
    (publishEvent env s e).1.length ≤ 1 := by
  rcases publishEvent_trace env s e with h | h <;> simp [h]

/-- Helper: a dispatch trace of the shape the subscriber callback builds
around a handler fragment free of acknowledgments holds exactly one
acknowledgment. -/
theorem ackCount_wrap (l : List DispatchStep)
    (hl : l.countP isAckStep = 0) :
    ackCount (.loggedDebug :: (l ++ [.ackMsg])) = 1 := by
  simp [ackCount, List.countP_cons, List.countP_append, hl, isAckStep]


/-- C1: evaluation of HandleCreate at the spec scenario Create command.
The emitted Created event's id equals the processor-generated uuid
(uuid.NewString() output is the newUUID argument): switching the
generator output from "uuid-A" to "uuid-B" switches the event id
accordingly, and no store call occurs anywhere in HandleCreate (the
embedded Processor holds no store handle). This contradicts the claim
that the id is the store-returned generated id and never fabricated by
the processor. -/
theorem create_id_is_generated_uuid :
    HandleCreate envOk "uuid-A" 7 cmdC =
      ([("todo.events", Event.created
        { base := { type := .TodoCreatedEvt, id := "uuid-A",
                    userId := "u1", timestamp := 7 },
          title := "buy milk", description := none, dueDate := none,
          priority := none, tags := none })], none) ∧
    HandleCreate envOk "uuid-B" 7 cmdC =
      ([("todo.events", Event.created
        { base := { type := .TodoCreatedEvt, id := "uuid-B",
                    userId := "u1", timestamp := 7 },
          title := "buy milk", description := none, dueDate := none,
          priority := none, tags := none })], none) :=
  ⟨rfl, rfl⟩

/-- C2: evaluation of HandleUpdate at the spec scenario Update command
(absent title/description/tags, completed true). The code consults no
store, so the zero-rows-affected outcome does not exist; it publishes
exactly one TodoUpdatedEvent (the success variant, never Updated-failed)
and returns a nil error. -/
theorem update_publishes_success_variant_unconditionally :
    HandleUpdate envOk 5 cmdU =
      ([("todo.events", Event.updated
        { base := { type := .TodoUpdatedEvt, id := "t1",
                    userId := "u1", timestamp := 5 },
          title := "", description := "", completed := true,
          dueDate := none, priority := none, tags := [] })], none) :=
  rfl

/-- C3: evaluation of HandleDelete at the spec scenario Delete command.
The code consults no store, so the zero-rows-affected outcome does not
exist; it publishes the TodoDeletedEvent success variant (never
Deleted-failed) and returns a nil error, not the non-nil hard-failure
error the claim requires. -/
theorem delete_publishes_success_and_nil_error :
    HandleDelete envOk 5 cmdD =
      ([("todo.events", Event.deleted
        { base := { type := .TodoDeletedEvt, id := "t1",
                    userId := "u1", timestamp := 5 } })], none) :=
  rfl

/-- C4 counterexample: with a failing serializer, a processed Create
command publishes zero events and returns the serialization error,
contradicting the claim that exactly one event is published on every
path including serialization errors. -/
theorem serialization_error_publishes_zero :
    runCommand envBoom "u" 0 (Command.create cmdC) = ([], some "boom") :=
  rfl

/-- C4 (amended): every processed command performs at most one broker
publish call, and exactly one whenever serialization succeeds. -/
theorem processor_publishes_at_most_once :
    ∀ (env : Env) (newUUID : String) (now : Time) (c : Command),
      (runCommand env newUUID now c).1.length ≤ 1 ∧
      ((∀ ev, isOkE (env.marshal ev) = true) →
        (runCommand env newUUID now c).1.length = 1) := by
  intro env newUUID now c
  constructor
  · cases c <;>
      simp only [runCommand, HandleCreate, HandleUpdate, HandleDelete] <;>
      exact publishEvent_length_le env "todo.events" _
  · intro hok
    cases c <;>
      simp only [runCommand, HandleCreate, HandleUpdate, HandleDelete] <;>
      rw [publishEvent_trace_of_ok env "todo.events" _ (hok _)] <;>
      rfl

/-- C4 witness: the amended claim instantiated at a concrete command in
an environment where serialization always succeeds. -/
theorem processor_publishes_at_most_once_witness :
    (runCommand envOk "u" 0 (Command.create cmdC)).1.length ≤ 1 ∧
    (runCommand envOk "u" 0 (Command.create cmdC)).1.length = 1 :=
  ⟨(processor_publishes_at_most_once envOk "u" 0 (Command.create cmdC)).1,
   (processor_publishes_at_most_once envOk "u" 0 (Command.create cmdC)).2
     (fun _ => rfl)⟩

/-- C5: for every Update command with absent title, description and tags,
every event the handler publishes is an Updated event whose title and
description are the empty string, whose tags are the empty collection
and whose completed flag is the dereferenced command flag; no stored
row is consulted (the handler takes no store argument at all). -/
theorem update_absent_fields_default :
    ∀ (env : Env) (now : Time) (cmd : UpdateTodoCommand),
      cmd.title = none → cmd.description = none → cmd.tags = none →
      ((HandleUpdate env now cmd).1.all fun p =>
        match p.2 with
        | .updated e =>
          e.title == "" && e.description == "" && e.tags.isEmpty &&
            (e.completed == derefBool cmd.completed)
        | _ => true) = true := by
  intro env now cmd ht hd htg
  simp only [HandleUpdate]
  apply publishEvent_all
  simp [ht, hd, htg, derefString, derefStringSlice]

/-- C5 witness: the defaulting behavior at the spec scenario Update
command with completed true and all other optionals absent. -/
theorem update_absent_fields_default_witness :
    cmdU.title = none ∧ cmdU.description = none ∧ cmdU.tags = none ∧
    ((HandleUpdate envOk 5 cmdU).1.all fun p =>
      match p.2 with
      | .updated e =>
        e.title == "" && e.description == "" && e.tags.isEmpty &&
          (e.completed == derefBool cmdU.completed)
      | _ => true) = true :=
  ⟨rfl, rfl, rfl, update_absent_fields_default envOk 5 cmdU rfl rfl rfl⟩

/-- C6: the dispatcher acknowledges every delivered message exactly once
regardless of outcome (including arbitrary handler/publish failures,
since the environment is universally quantified); on envelope decode
failure no event is published; on an unrecognized discriminant no event
is published. -/
theorem dispatcher_ack_exactly_once :
    (∀ (env : Env) (newUUID : String) (now : Time) (msg : MsgOracle),
      ackCount (subscribeCallback env newUUID now msg) = 1) ∧
    (∀ (env : Env) (newUUID : String) (now : Time) (msg : MsgOracle)
        (e : String), msg.decodeBase = .error e →
      pubCount (subscribeCallback env newUUID now msg) = 0) ∧
    (∀ (env : Env) (newUUID : String) (now : Time) (msg : MsgOracle)
        (base : BaseCommand), msg.decodeBase = .ok base →
      base.type ≠ CreateTodoCmd → base.type ≠ UpdateTodoCmd →
      base.type ≠ DeleteTodoCmd →
      pubCount (subscribeCallback env newUUID now msg) = 0) := by
  refine ⟨?_, ?_, ?_⟩
  · intro env newUUID now msg
    cases h : msg.decodeBase with
    | error e =>
      simp only [subscribeCallback, h]
      rfl
    | ok base =>
      simp only [subscribeCallback, h]
      apply ackCount_wrap
      split_ifs with h1 h2 h3
      · exact ackCount_map_pub _
      · exact ackCount_map_pub _
      · exact ackCount_map_pub _
      · rfl
  · intro env newUUID now msg e h
    simp only [subscribeCallback, h]
    rfl
  · intro env newUUID now msg base h h1 h2 h3
    simp only [subscribeCallback, h]
    rw [if_neg h1, if_neg h2, if_neg h3]
    rfl

/-- C6 witness: exactly one acknowledgment and zero published events for
a concrete undecodable message and a concrete unknown-discriminant
message. -/
theorem dispatcher_ack_exactly_once_witness :
    ackCount (subscribeCallback envOk "u" 0 msgBad) = 1 ∧
    pubCount (subscribeCallback envOk "u" 0 msgBad) = 0 ∧
    ackCount (subscribeCallback envOk "u" 0 msgUnknown) = 1 ∧
    pubCount (subscribeCallback envOk "u" 0 msgUnknown) = 0 :=
  ⟨dispatcher_ack_exactly_once.1 envOk "u" 0 msgBad,
   dispatcher_ack_exactly_once.2.1 envOk "u" 0 msgBad "invalid json" rfl,
   dispatcher_ack_exactly_once.1 envOk "u" 0 msgUnknown,
   dispatcher_ack_exactly_once.2.2 envOk "u" 0 msgUnknown
     { type := "Bogus", id := "", userId := "u1" } rfl
     (by decide) (by decide) (by decide)⟩

/-- C7: every event published for any command carries as its timestamp
the clock reading taken at event construction, uniformly in the command
(the command value does not influence the timestamp). -/
theorem event_timestamp_from_clock :
    ∀ (env : Env) (newUUID : String) (now : Time) (c : Command),
      ((runCommand env newUUID now c).1.all fun p =>
        eventTimestamp p.2 == now) = true := by
  intro env newUUID now c
  cases c <;>
    simp only [runCommand, HandleCreate, HandleUpdate, HandleDelete] <;>
    apply publishEvent_all <;>
    simp [eventTimestamp]

/-- C8: every event HandleCreate publishes carries the input command's
userId. -/
theorem created_event_userid :
    ∀ (env : Env) (newUUID : String) (now : Time) (cmd : CreateTodoCommand),
      ((HandleCreate env newUUID now cmd).1.all fun p =>
        eventUserId p.2 == cmd.userId) = true := by
  intro env newUUID now cmd
  simp only [HandleCreate]
  apply publishEvent_all
  simp [eventUserId]

/-- C9: when serialization of the event fails, publishEvent performs no
broker publish call and returns exactly the serialization error; hence
a handler invocation in an environment whose serializer fails emits zero
events and returns a non-nil error. -/
theorem publish_skipped_on_marshal_error :
    (∀ (env : Env) (subject : String) (evt : Event) (e : String),
      env.marshal evt = .error e → publishEvent env subject evt = ([], some e)) ∧
    (∀ (env : Env) (newUUID : String) (now : Time) (c : Command) (e : String),
      (∀ ev, env.marshal ev = Except.error e) →
      runCommand env newUUID now c = ([], some e)) := by
  constructor
  · intro env subject evt e h
    simp [publishEvent, h]
  · intro env newUUID now c e h
    cases c <;>
      simp [runCommand, HandleCreate, HandleUpdate, HandleDelete,
        publishEvent, h]

/-- C9 witness: a concrete failing serializer yields no publish call and
the error is surfaced, both at the publishEvent level and through a full
handler invocation. -/
theorem publish_skipped_on_marshal_error_witness :
    publishEvent envBoom "todo.events" evtD = ([], some "boom") ∧
    runCommand envBoom "u" 0 (Command.delete cmdD) = ([], some "boom") :=
  ⟨publish_skipped_on_marshal_error.1 envBoom "todo.events" evtD "boom" rfl,
   publish_skipped_on_marshal_error.2 envBoom "u" 0 (Command.delete cmdD)
     "boom" (fun _ => rfl)⟩

end DomainProcessor
